import Mathlib

/-!
Shallow embedding of `src/mariadb_kernel/mariadb_client.py`, the interactive
MariaDB command-line client driver: `MariaREPL.run_command` (scratch-file
handoff plus prompt-synchronized capture) and `MariaDBClient`
(start / stop / run_statement / iserror / error_message), together with
theorems settling the specification claims about them.

The child process and the operating system are external: their observable
behavior during one call (prompt match with captured text, EOF, timeout;
launch success, EOF at launch, other pexpect failure) is an explicit input
of each modelled operation. The filesystem is modelled as an association
list from path to content.
-/

namespace MariadbKernel

/-- Filesystem model: an association list from absolute path to file content. -/
abbrev FS := List (String × String)

/-- Remove every entry at path `p` (model of `Path.unlink`). -/
def FS.erase : FS → String → FS
  | [], _ => []
  | e :: t, p => if e.1 = p then FS.erase t p else e :: FS.erase t p

/-- Model of `open("w")` followed by `write`: create/truncate the file at `p` with content `c`. -/
def FS.write (fs : FS) (p c : String) : FS := (p, c) :: FS.erase fs p

/-- Whether a file exists at path `p`. -/
def FS.existsFile : FS → String → Bool
  | [], _ => false
  | e :: t, p => if e.1 = p then true else FS.existsFile t p

/-- Boolean test that `needle` occurs at the head of `hay` (character lists). -/
def charsLeadWith : List Char → List Char → Bool
  | _, [] => true
  | [], _ :: _ => false
  | a :: as, b :: bs => a == b && charsLeadWith as bs

/-- Boolean substring occurrence on character lists. -/
def charsContain : List Char → List Char → Bool
  | [], needle => needle.isEmpty
  | a :: as, needle => charsLeadWith (a :: as) needle || charsContain as needle

/-- Model of the Python test `needle in hay` (substring occurrence) on strings. -/
def strContains (hay needle : String) : Bool :=
  charsContain hay.toList needle.toList

/-- Model of the Python test `s.startswith(lead)` on strings. -/
def strLeadsWith (s lead : String) : Bool :=
  charsLeadWith s.toList lead.toList

/-- Python exception kinds visible to the driver: `pexpect.EOF`,
`pexpect.TIMEOUT` (both carrying a message), and the `AttributeError`
raised when the absent (`None`) REPL handle is dereferenced. -/
inductive PyExc
  | eof (msg : String)
  | timeout (msg : String)
  | attributeError
deriving DecidableEq, Repr

/-- Observable behavior of the child process during one prompt wait inside
`run_command`: the prompt pattern matched and `child.before` is `before`,
or the stream closed (`pexpect.EOF` raised), or the wait timed out
(`pexpect.TIMEOUT` raised). -/
inductive ChildBehavior
  | prompt (before : String)
  | eofRaised (msg : String)
  | timeoutRaised (msg : String)
deriving DecidableEq, Repr

/-- Scratch file name used by `run_command` (`stmt_file` in the source). -/
def stmt_file : String := ".mariadb_statement"

/-- Model of `Path.cwd().joinpath(stmt_file)`: absolute path of the scratch file. -/
def statement_file_path (cwd : String) : String := cwd ++ "/" ++ stmt_file

/-- Line terminator appended by `pexpect.sendline`. -/
def linesep : String := "\n"

/-- Result of one `MariaREPL.run_command` call: final filesystem, the file
writes performed (path, content) in order, the raw text transmitted to the
input of the child, and the outcome (captured text, or the raised exception). -/
structure ReplRunResult where
  fs : FS
  written : List (String × String)
  sentRaw : List String
  outcome : Except PyExc String
deriving Repr

/-- Model of `MariaREPL.run_command`: write the statement text to the scratch file
(`f.write(code)` — exactly `code`, nothing appended), `sendline` the control
command `source <path>`, wait for the prompt, and — in a `try/finally` —
unlink the scratch file on every path before returning `child.before` or
re-raising the EOF/TIMEOUT exception. -/
def MariaREPL.run_command (cwd : String) (fs : FS) (code : String)
    (child : ChildBehavior) : ReplRunResult :=
  let path := statement_file_path cwd
  let fs1 := FS.write fs path code
  let sent := ["source " ++ path ++ linesep]
  let fs2 := FS.erase fs1 path
  match child with
  | .prompt before =>
      { fs := fs2, written := [(path, code)], sentRaw := sent, outcome := .ok before }
  | .eofRaised m =>
      { fs := fs2, written := [(path, code)], sentRaw := sent, outcome := .error (.eof m) }
  | .timeoutRaised m =>
      { fs := fs2, written := [(path, code)], sentRaw := sent, outcome := .error (.timeout m) }

/-- Driver state: the REPL handle (`None` until a successful start; never
reset by `stop`), and the sticky error flag and error message. -/
structure MariaDBClient where
  maria_repl : Option Unit
  error : Bool
  errormsg : String
deriving DecidableEq, Repr

/-- Model of `MariaDBClient.__init__`: no REPL handle, error flag cleared, empty message. -/
def MariaDBClient.init : MariaDBClient :=
  { maria_repl := none, error := false, errormsg := "" }

/-- Accessor `iserror`: read the sticky error flag. -/
def MariaDBClient.iserror (cl : MariaDBClient) : Bool := cl.error

/-- Accessor `error_message`: read the sticky error message. -/
def MariaDBClient.error_message (cl : MariaDBClient) : String := cl.errormsg

/-- Observable behavior of `MariaREPL(...)` construction inside `start`:
success, `pexpect.EOF` raised with the terminal output in `e.value`, or
another `ExceptionPexpect` (e.g. the client binary cannot be spawned). -/
inductive LaunchBehavior
  | success
  | eofRaised (value : String)
  | pexpectRaised
deriving DecidableEq, Repr

/-- The exceptions `start` can raise to the host. -/
inductive StartExc
  | loginError
  | serverIsDownError
deriving DecidableEq, Repr

/-- Model of `MariaDBClient.start`: on successful launch set the REPL handle; on
`EOF` raise `LoginError` when the terminal output contains the
credential-rejection phrase and `ServerIsDownError` otherwise (the handle
is left untouched since the assignment never ran); on any other
`ExceptionPexpect` only log and return normally, the handle untouched. -/
def MariaDBClient.start (cl : MariaDBClient) (launch : LaunchBehavior) :
    MariaDBClient × Except StartExc Unit :=
  match launch with
  | .success => ({ cl with maria_repl := some () }, .ok ())
  | .eofRaised v =>
      if strContains v "Access denied for user" then (cl, .error .loginError)
      else (cl, .error .serverIsDownError)
  | .pexpectRaised => (cl, .ok ())

/-- Model of `MariaDBClient.stop`: return immediately when the handle is `None`;
otherwise `sendline("quit")` and expect EOF (end-of-stream is the expected
success signal, so no exception is raised). The second component records
the raw text sent to the child; the handle is never reset. -/
def MariaDBClient.stop (cl : MariaDBClient) : MariaDBClient × List String :=
  match cl.maria_repl with
  | none => (cl, [])
  | some _ => (cl, ["quit" ++ linesep])

/-- Lines 121-125 of the source: the sticky-flag update after the `try`
block. An `ERROR`-prefixed result sets the flag and stores the message;
any other result clears only the flag (the message is left unchanged). -/
def classifyFlags (cl : MariaDBClient) (result : String) : MariaDBClient :=
  if strLeadsWith result "ERROR" then { cl with error := true, errormsg := result }
  else { cl with error := false }

/-- Lines 126-127 of the source: an empty result is replaced by the fixed
acknowledgement string. -/
def normalizeResult (result : String) : String :=
  if result = "" then "Query OK" else result

/-- Result of one `MariaDBClient.run_statement` call. -/
structure RunStatementResult where
  fs : FS
  written : List (String × String)
  sentRaw : List String
  client : MariaDBClient
  outcome : Except PyExc String
deriving Repr

/-- Model of `MariaDBClient.run_statement`: `if not code: return ""` (true only for
the empty string); dereference `self.maria_repl` (an `AttributeError` when
it is `None`, caught by neither `except` clause, so it propagates and the
flag update never runs); call `run_command`, catching exactly `EOF` and
`TIMEOUT` (logged, `result` left `""`); then update the sticky flags and
normalize the empty result to the acknowledgement string. -/
def MariaDBClient.run_statement (cwd : String) (fs : FS) (cl : MariaDBClient)
    (code : String) (child : ChildBehavior) : RunStatementResult :=
  if code = "" then
    { fs := fs, written := [], sentRaw := [], client := cl, outcome := .ok "" }
  else
    match cl.maria_repl with
    | none =>
        { fs := fs, written := [], sentRaw := [], client := cl,
          outcome := .error .attributeError }
    | some _ =>
        let r := MariaREPL.run_command cwd fs code child
        match r.outcome with
        | .ok s =>
            { fs := r.fs, written := r.written, sentRaw := r.sentRaw,
              client := classifyFlags cl s, outcome := .ok (normalizeResult s) }
        | .error (.eof _) =>
            { fs := r.fs, written := r.written, sentRaw := r.sentRaw,
              client := classifyFlags cl "", outcome := .ok (normalizeResult "") }
        | .error (.timeout _) =>
            { fs := r.fs, written := r.written, sentRaw := r.sentRaw,
              client := classifyFlags cl "", outcome := .ok (normalizeResult "") }
        | .error e =>
            { fs := r.fs, written := r.written, sentRaw := r.sentRaw,
              client := cl, outcome := .error e }

/-- Exception kinds caught by the two `except` clauses of `run_statement`
(`except EOF` and `except TIMEOUT`); any other exception propagates. -/
def PyExc.isCaughtByRunStatement : PyExc → Bool
  | .eof _ => true
  | .timeout _ => true
  | .attributeError => false

/-- A string that starts with `ERROR` is not the empty string. -/
theorem strLeadsWith_ERROR_ne_empty (s : String)
    (h : strLeadsWith s "ERROR" = true) : s ≠ "" := by
  intro hs
  rw [hs] at h
  exact absurd h (by decide)

/-- Erasing a path from the filesystem makes that path not exist. -/
theorem existsFile_erase (fs : FS) (p : String) :
    FS.existsFile (FS.erase fs p) p = false := by
  induction fs with
  | nil => rfl
  | cons e t ih =>
      by_cases h : e.1 = p
      · simpa [FS.erase, h] using ih
      · simp [FS.erase, FS.existsFile, h, ih]

/-- C1: for every statement whose captured channel output begins with the
literal marker `ERROR`, `run_statement` returns that output verbatim, and
immediately afterwards `iserror` returns true and `error_message` returns
exactly the text that `run_statement` returned. -/
theorem claim1_error_output_verbatim (cwd : String) (fs : FS)
    (cl : MariaDBClient) (code out : String) (hcode : code ≠ "")
    (hrepl : cl.maria_repl = some ()) (herr : strLeadsWith out "ERROR" = true) :
    (MariaDBClient.run_statement cwd fs cl code (.prompt out)).outcome = .ok out ∧
    (MariaDBClient.run_statement cwd fs cl code (.prompt out)).client.iserror = true ∧
    (MariaDBClient.run_statement cwd fs cl code (.prompt out)).client.error_message = out := by
  have hne := strLeadsWith_ERROR_ne_empty out herr
  simp [MariaDBClient.run_statement, MariaREPL.run_command, classifyFlags,
    normalizeResult, MariaDBClient.iserror, MariaDBClient.error_message,
    hcode, hrepl, herr, hne]

/-- Witness for C1 at a concrete error reply. -/
theorem claim1_error_output_verbatim_witness :
    ("SELECT x;" ≠ "") ∧
    (strLeadsWith "ERROR 1064 (42000): oops" "ERROR" = true) ∧
    (MariaDBClient.run_statement "/w" [] ⟨some (), false, ""⟩ "SELECT x;"
        (.prompt "ERROR 1064 (42000): oops")).outcome =
      .ok "ERROR 1064 (42000): oops" ∧
    (MariaDBClient.run_statement "/w" [] ⟨some (), false, ""⟩ "SELECT x;"
        (.prompt "ERROR 1064 (42000): oops")).client.iserror = true ∧
    (MariaDBClient.run_statement "/w" [] ⟨some (), false, ""⟩ "SELECT x;"
        (.prompt "ERROR 1064 (42000): oops")).client.error_message =
      "ERROR 1064 (42000): oops" := by
  have h := claim1_error_output_verbatim "/w" [] ⟨some (), false, ""⟩ "SELECT x;"
    "ERROR 1064 (42000): oops" (by decide) rfl (by decide)
  exact ⟨by decide, by decide, h.1, h.2.1, h.2.2⟩

/-- C2: for every non-empty statement submitted through `run_command`, the
scratch file no longer exists when the call returns, on every child
behavior: prompt match, timeout, and stream closure (the unlink sits in the
`finally` block, so deletion is unconditional). -/
theorem claim2_scratch_file_deleted (cwd : String) (fs : FS) (code : String)
    (child : ChildBehavior) (hcode : code ≠ "") :
    FS.existsFile (MariaREPL.run_command cwd fs code child).fs
      (statement_file_path cwd) = false := by
  cases child <;> exact existsFile_erase _ _

/-- Witness for C2 on the stream-closure path. -/
theorem claim2_scratch_file_deleted_witness :
    ("SELECT 1;" ≠ "") ∧
    FS.existsFile (MariaREPL.run_command "/w" [] "SELECT 1;"
        (.eofRaised "End Of File")).fs (statement_file_path "/w") = false :=
  ⟨by decide,
   claim2_scratch_file_deleted "/w" [] "SELECT 1;" (.eofRaised "End Of File")
     (by decide)⟩

/-- C3 counterexample: with a started driver, running the whitespace-only
statement consisting of three spaces does interact with the Channel (the
source command is transmitted, the scratch file is written) and does not
return empty text — the emptiness guard `if not code` is true only for the
empty string. -/
theorem claim3_counterexample :
    (MariaDBClient.run_statement "/w" [] ⟨some (), false, ""⟩ "   "
        (.prompt "x")).sentRaw =
      ["source " ++ statement_file_path "/w" ++ linesep] ∧
    (MariaDBClient.run_statement "/w" [] ⟨some (), false, ""⟩ "   "
        (.prompt "x")).written = [(statement_file_path "/w", "   ")] ∧
    (MariaDBClient.run_statement "/w" [] ⟨some (), false, ""⟩ "   "
        (.prompt "x")).outcome = .ok "x" ∧ ("x" : String) ≠ "" :=
  ⟨rfl, rfl, rfl, by decide⟩

/-- C3 amended: run with the empty statement returns empty text with no
channel interaction, no scratch write and no state change; a
whitespace-only statement such as three spaces is not special-cased — it
is written to the scratch file and submitted through the Channel like any
other non-empty statement. -/
theorem claim3_empty_vs_whitespace (cwd : String) (fs : FS)
    (cl : MariaDBClient) (child : ChildBehavior)
    (hrepl : cl.maria_repl = some ()) :
    MariaDBClient.run_statement cwd fs cl "" child =
      { fs := fs, written := [], sentRaw := [], client := cl, outcome := .ok "" } ∧
    (MariaDBClient.run_statement cwd fs cl "   " child).sentRaw =
      ["source " ++ statement_file_path cwd ++ linesep] ∧
    (MariaDBClient.run_statement cwd fs cl "   " child).written =
      [(statement_file_path cwd, "   ")] := by
  refine ⟨by simp [MariaDBClient.run_statement], ?_, ?_⟩ <;>
    cases child <;>
      simp [MariaDBClient.run_statement, MariaREPL.run_command, hrepl]

/-- Witness for the amended C3 at a concrete started driver. -/
theorem claim3_empty_vs_whitespace_witness :
    MariaDBClient.run_statement "/w" [] ⟨some (), false, ""⟩ "" (.prompt "x") =
      { fs := [], written := [], sentRaw := [],
        client := ⟨some (), false, ""⟩, outcome := .ok "" } ∧
    (MariaDBClient.run_statement "/w" [] ⟨some (), false, ""⟩ "   "
        (.prompt "x")).sentRaw =
      ["source " ++ statement_file_path "/w" ++ linesep] ∧
    (MariaDBClient.run_statement "/w" [] ⟨some (), false, ""⟩ "   "
        (.prompt "x")).written = [(statement_file_path "/w", "   ")] :=
  claim3_empty_vs_whitespace "/w" [] ⟨some (), false, ""⟩ (.prompt "x") rfl

/-- C5: for every non-empty statement whose captured channel output is
empty, `run_statement` returns the fixed acknowledgement string
`Query OK`, and immediately afterwards `iserror` returns false. -/
theorem claim5_empty_output_query_ok (cwd : String) (fs : FS)
    (cl : MariaDBClient) (code : String) (hcode : code ≠ "")
    (hrepl : cl.maria_repl = some ()) :
    (MariaDBClient.run_statement cwd fs cl code (.prompt "")).outcome =
      .ok "Query OK" ∧
    (MariaDBClient.run_statement cwd fs cl code (.prompt "")).client.iserror =
      false := by
  have h : strLeadsWith "" "ERROR" = false := by decide
  simp [MariaDBClient.run_statement, MariaREPL.run_command, classifyFlags,
    normalizeResult, MariaDBClient.iserror, hcode, hrepl, h]

/-- Witness for C5 at a concrete statement with empty output. -/
theorem claim5_empty_output_query_ok_witness :
    ("USE test;" ≠ "") ∧
    (MariaDBClient.run_statement "/w" [] ⟨some (), true, "old"⟩ "USE test;"
        (.prompt "")).outcome = .ok "Query OK" ∧
    (MariaDBClient.run_statement "/w" [] ⟨some (), true, "old"⟩ "USE test;"
        (.prompt "")).client.iserror = false := by
  have h := claim5_empty_output_query_ok "/w" [] ⟨some (), true, "old"⟩
    "USE test;" (by decide) rfl
  exact ⟨by decide, h.1, h.2⟩

/-- C4 counterexample: when the stream closes during run of the non-empty
statement, `run_statement` returns the acknowledgement string `Query OK`,
not the empty result text that the claim states. -/
theorem claim4_counterexample :
    (MariaDBClient.run_statement "/w" [] ⟨some (), false, ""⟩ "SELECT 1;"
        (.eofRaised "End Of File")).outcome = .ok "Query OK" ∧
    ("Query OK" : String) ≠ "" :=
  ⟨rfl, by decide⟩

/-- C4 amended: when the Channel times out or the stream closes during run
of a non-empty statement, no exception propagates to the host and the
error flag is left false, but the internally empty result is normalized,
so `run_statement` returns the acknowledgement string `Query OK` rather
than empty text; the stored error message is unchanged. -/
theorem claim4_channel_failure_swallowed (cwd : String) (fs : FS)
    (cl : MariaDBClient) (code m : String) (child : ChildBehavior)
    (hcode : code ≠ "") (hrepl : cl.maria_repl = some ())
    (hch : child = .eofRaised m ∨ child = .timeoutRaised m) :
    (MariaDBClient.run_statement cwd fs cl code child).outcome =
      .ok "Query OK" ∧
    (MariaDBClient.run_statement cwd fs cl code child).client.iserror =
      false ∧
    (MariaDBClient.run_statement cwd fs cl code child).client.error_message =
      cl.errormsg := by
  have h : strLeadsWith "" "ERROR" = false := by decide
  rcases hch with hch | hch <;> subst hch <;>
    simp [MariaDBClient.run_statement, MariaREPL.run_command, classifyFlags,
      normalizeResult, MariaDBClient.iserror, MariaDBClient.error_message,
      hcode, hrepl, h]

/-- Witness for the amended C4 on the timeout path. -/
theorem claim4_channel_failure_swallowed_witness :
    ("SELECT 1;" ≠ "") ∧
    (MariaDBClient.run_statement "/w" [] ⟨some (), true, "old"⟩ "SELECT 1;"
        (.timeoutRaised "Timeout exceeded")).outcome = .ok "Query OK" ∧
    (MariaDBClient.run_statement "/w" [] ⟨some (), true, "old"⟩ "SELECT 1;"
        (.timeoutRaised "Timeout exceeded")).client.iserror = false ∧
    (MariaDBClient.run_statement "/w" [] ⟨some (), true, "old"⟩ "SELECT 1;"
        (.timeoutRaised "Timeout exceeded")).client.error_message = "old" := by
  have h := claim4_channel_failure_swallowed "/w" [] ⟨some (), true, "old"⟩
    "SELECT 1;" "Timeout exceeded" (.timeoutRaised "Timeout exceeded")
    (by decide) rfl (Or.inr rfl)
  exact ⟨by decide, h.1, h.2.1, h.2.2⟩

/-- C6: `start` maps an immediate-exit EOF whose terminal output carries
credential-rejection evidence to `LoginError`, any other immediate-exit
EOF to `ServerIsDownError` (distinct raised types), and a spawn failure
(`ExceptionPexpect`, e.g. the binary cannot be located) to a logged,
non-raising return that leaves the driver state — hence its absent REPL
handle — untouched. -/
theorem claim6_start_classification (cl : MariaDBClient) (v : String) :
    (strContains v "Access denied for user" = true →
      MariaDBClient.start cl (.eofRaised v) = (cl, .error .loginError)) ∧
    (strContains v "Access denied for user" = false →
      MariaDBClient.start cl (.eofRaised v) = (cl, .error .serverIsDownError)) ∧
    MariaDBClient.start cl .pexpectRaised = (cl, .ok ()) := by
  refine ⟨fun h => ?_, fun h => ?_, rfl⟩ <;> simp [MariaDBClient.start, h]

/-- Witness for C6 at three concrete launch behaviors. -/
theorem claim6_start_classification_witness :
    MariaDBClient.start MariaDBClient.init
        (.eofRaised "ERROR 1045: Access denied for user root") =
      (MariaDBClient.init, .error .loginError) ∧
    MariaDBClient.start MariaDBClient.init (.eofRaised "Cannot connect") =
      (MariaDBClient.init, .error .serverIsDownError) ∧
    MariaDBClient.start MariaDBClient.init .pexpectRaised =
      (MariaDBClient.init, .ok ()) :=
  ⟨(claim6_start_classification MariaDBClient.init
      "ERROR 1045: Access denied for user root").1 (by decide),
   (claim6_start_classification MariaDBClient.init "Cannot connect").2.1
     (by decide),
   (claim6_start_classification MariaDBClient.init "").2.2⟩

/-- C7 counterexample: for the statement `SELECT 1;` the scratch file
content written by `run_command` is exactly `SELECT 1;` — no trailing
newline is appended — contradicting the claimed content with a trailing
newline. -/
theorem claim7_counterexample :
    (MariaREPL.run_command "/w" [] "SELECT 1;" (.prompt "")).written =
      [(statement_file_path "/w", "SELECT 1;")] ∧
    ("SELECT 1;" : String) ≠ "SELECT 1;" ++ "\n" :=
  ⟨rfl, by decide⟩

/-- C7 amended: for every non-empty statement, `run_command` writes exactly
the raw statement text (with no trailing newline appended) into the
scratch file, and transmits to the child input exactly the control command
`source <absolute-scratch-path>` followed by a line terminator — never the
statement text itself inline. -/
theorem claim7_source_protocol (cwd : String) (fs : FS) (code : String)
    (child : ChildBehavior) (hcode : code ≠ "") :
    (MariaREPL.run_command cwd fs code child).written =
      [(statement_file_path cwd, code)] ∧
    (MariaREPL.run_command cwd fs code child).sentRaw =
      ["source " ++ statement_file_path cwd ++ linesep] := by
  cases child <;> exact ⟨rfl, rfl⟩

/-- Witness for the amended C7 at a concrete statement. -/
theorem claim7_source_protocol_witness :
    ("SELECT 1;" ≠ "") ∧
    (MariaREPL.run_command "/w" [] "SELECT 1;" (.prompt "1")).written =
      [(statement_file_path "/w", "SELECT 1;")] ∧
    (MariaREPL.run_command "/w" [] "SELECT 1;" (.prompt "1")).sentRaw =
      ["source " ++ statement_file_path "/w" ++ linesep] := by
  have h := claim7_source_protocol "/w" [] "SELECT 1;" (.prompt "1")
    (by decide)
  exact ⟨by decide, h.1, h.2⟩

/-- C8 counterexample: after a successful start and a successful stop, a
second stop is not a no-op — the REPL handle was never cleared, so the
quit command is sent to the child again. -/
theorem claim8_counterexample :
    (MariaDBClient.stop
        (MariaDBClient.stop
          (MariaDBClient.start MariaDBClient.init .success).1).1).2 =
      ["quit" ++ linesep] ∧
    (["quit" ++ linesep] : List String) ≠ [] :=
  ⟨rfl, by decide⟩

/-- C8 amended: `stop` is a no-op that raises nothing when the driver was
never started (handle `None`); but `stop` never clears the handle, so a
second stop after a successful stop is not a no-op — it repeats the
quit/expect-EOF interaction with the child (end-of-stream being the
expected signal, it still raises nothing in the model). -/
theorem claim8_stop_twice (cl : MariaDBClient) :
    (cl.maria_repl = none → MariaDBClient.stop cl = (cl, [])) ∧
    (MariaDBClient.stop cl).1.maria_repl = cl.maria_repl ∧
    (cl.maria_repl = some () →
      (MariaDBClient.stop (MariaDBClient.stop cl).1).2 = ["quit" ++ linesep]) := by
  cases hr : cl.maria_repl with
  | none =>
      refine ⟨fun _ => ?_, ?_, fun h => Option.noConfusion h⟩
      · simp [MariaDBClient.stop, hr]
      · simp [MariaDBClient.stop, hr]
  | some u =>
      cases u
      refine ⟨fun h => Option.noConfusion h, ?_, fun _ => ?_⟩
      · simp [MariaDBClient.stop, hr]
      · simp [MariaDBClient.stop, hr]

/-- Witness for the amended C8: fresh driver and started-then-stopped
driver. -/
theorem claim8_stop_twice_witness :
    MariaDBClient.stop MariaDBClient.init = (MariaDBClient.init, []) ∧
    (MariaDBClient.stop
        (MariaDBClient.start MariaDBClient.init .success).1).1.maria_repl =
      (MariaDBClient.start MariaDBClient.init .success).1.maria_repl ∧
    (MariaDBClient.stop
        (MariaDBClient.stop
          (MariaDBClient.start MariaDBClient.init .success).1).1).2 =
      ["quit" ++ linesep] :=
  ⟨(claim8_stop_twice MariaDBClient.init).1 rfl,
   (claim8_stop_twice (MariaDBClient.start MariaDBClient.init .success).1).2.1,
   (claim8_stop_twice
      (MariaDBClient.stop
        (MariaDBClient.start MariaDBClient.init .success).1).1).2.2 rfl⟩

/-- C9: a run whose captured output does not begin with `ERROR` clears the
error flag but leaves the stored error message untouched: after an
error-producing run followed by a non-error run, `iserror` is false yet
`error_message` still returns the error text of the earlier run. -/
theorem claim9_errormsg_never_reset (cwd : String) (fsA fsB : FS)
    (cl : MariaDBClient) (codeA codeB outA outB : String)
    (hA : codeA ≠ "") (hB : codeB ≠ "") (hrepl : cl.maria_repl = some ())
    (herr : strLeadsWith outA "ERROR" = true)
    (hok : strLeadsWith outB "ERROR" = false) :
    (MariaDBClient.run_statement cwd fsB
        (MariaDBClient.run_statement cwd fsA cl codeA (.prompt outA)).client
        codeB (.prompt outB)).client.iserror = false ∧
    (MariaDBClient.run_statement cwd fsB
        (MariaDBClient.run_statement cwd fsA cl codeA (.prompt outA)).client
        codeB (.prompt outB)).client.error_message = outA := by
  simp [MariaDBClient.run_statement, MariaREPL.run_command, classifyFlags,
    normalizeResult, MariaDBClient.iserror, MariaDBClient.error_message,
    hA, hB, hrepl, herr, hok]

/-- Witness for C9: an error run followed by a successful run. -/
theorem claim9_errormsg_never_reset_witness :
    ("BAD;" ≠ "") ∧ ("SELECT 1;" ≠ "") ∧
    (strLeadsWith "ERROR 1064: bad" "ERROR" = true) ∧
    (strLeadsWith "1" "ERROR" = false) ∧
    (MariaDBClient.run_statement "/w" []
        (MariaDBClient.run_statement "/w" [] ⟨some (), false, ""⟩ "BAD;"
          (.prompt "ERROR 1064: bad")).client
        "SELECT 1;" (.prompt "1")).client.iserror = false ∧
    (MariaDBClient.run_statement "/w" []
        (MariaDBClient.run_statement "/w" [] ⟨some (), false, ""⟩ "BAD;"
          (.prompt "ERROR 1064: bad")).client
        "SELECT 1;" (.prompt "1")).client.error_message =
      "ERROR 1064: bad" := by
  have h := claim9_errormsg_never_reset "/w" [] [] ⟨some (), false, ""⟩
    "BAD;" "SELECT 1;" "ERROR 1064: bad" "1" (by decide) (by decide) rfl
    (by decide) (by decide)
  exact ⟨by decide, by decide, by decide, by decide, h.1, h.2⟩

/-- C10: calling `run_statement` with a non-empty statement while the REPL
handle is still `None` does not return normally: the dereference of the
absent handle raises `AttributeError`, which is not one of the caught
channel failure kinds (EOF, TIMEOUT), so it propagates to the host, and
the driver state is unchanged. -/
theorem claim10_unstarted_propagates (cwd : String) (fs : FS)
    (cl : MariaDBClient) (code : String) (child : ChildBehavior)
    (hcode : code ≠ "") (hrepl : cl.maria_repl = none) :
    (MariaDBClient.run_statement cwd fs cl code child).outcome =
      .error .attributeError ∧
    PyExc.isCaughtByRunStatement .attributeError = false ∧
    (MariaDBClient.run_statement cwd fs cl code child).client = cl := by
  refine ⟨?_, rfl, ?_⟩ <;> simp [MariaDBClient.run_statement, hcode, hrepl]

/-- Witness for C10 at a fresh, never-started driver. -/
theorem claim10_unstarted_propagates_witness :
    ("SELECT 1;" ≠ "") ∧
    (MariaDBClient.run_statement "/w" [] MariaDBClient.init "SELECT 1;"
        (.prompt "x")).outcome = .error .attributeError ∧
    PyExc.isCaughtByRunStatement .attributeError = false ∧
    (MariaDBClient.run_statement "/w" [] MariaDBClient.init "SELECT 1;"
        (.prompt "x")).client = MariaDBClient.init := by
  have h := claim10_unstarted_propagates "/w" [] MariaDBClient.init
    "SELECT 1;" (.prompt "x") (by decide) rfl
  exact ⟨by decide, h.1, h.2.1, h.2.2⟩

end MariadbKernel
